import Mathlib

/-!
Verification of the OpenRCT2 multiplayer client network-synchronization layer
(NetworkClient.cpp) and its identity key store (NetworkKey).

The C++ code is shallowly embedded: the client object's fields become a Lean
structure, each handler becomes a pure state-transition function, and the
outcomes of external calls (filesystem, OpenSSL) are passed in explicitly
through an environment record.  The game-command queue is a
std::multiset<GameCommand>; since C++11, multiset insertion places an element
with an equivalent key at the upper bound of the range of equal keys, which the
embedding reproduces by inserting before the first strictly greater element.
-/

namespace OpenRCT2

/-- Process-wide network mode flag (Network2::GetMode / SetMode). -/
inductive NETWORK_MODE where
  | NONE
  | CLIENT
  | SERVER
deriving DecidableEq, Repr

/-- Client connection status values used by NetworkClient.cpp. -/
inductive NETWORK_CLIENT_STATUS where
  | NONE
  | CONNECTING
deriving DecidableEq, Repr

/-- Socket status values used by NetworkClient.cpp. -/
inductive SOCKET_STATUS where
  | CLOSED
deriving DecidableEq, Repr

/-- Authentication status on a connection. -/
inductive NETWORK_AUTH where
  | NONE
  | REQUESTED
deriving DecidableEq, Repr

/-- String id for STR_MULTIPLAYER_VERIFICATION_FAILURE. -/
def STR_MULTIPLAYER_VERIFICATION_FAILURE : Nat := 1

/-- The identity key store (NetworkKey, WaterObject.h second part).  m_key is
the in-memory key material: none when no key is loaded.  Distinct Nat values
stand for distinct opaque EVP_PKEY contents. -/
structure NetworkKey where
  m_key : Option Nat
deriving DecidableEq, Repr

/-- NetworkKey::Unload: frees m_key when it is non-null, otherwise does
nothing. -/
def NetworkKey.Unload (k : NetworkKey) : NetworkKey :=
  match k.m_key with
  | some _ => { m_key := none }
  | none => k

/-- NetworkKey::Generate: on success the keygen writes a fresh key into m_key;
on any of the failure paths m_key is untouched.  The Bool argument stands for
the combined outcome of the OpenSSL keygen calls. -/
def NetworkKey.Generate (ok : Bool) (k : NetworkKey) : Bool × NetworkKey :=
  if ok then (true, { m_key := some 2 }) else (false, k)

/-- The 4 MiB sanity ceiling on key file sizes (4 * 1024 * 1024). -/
def keyFileSizeLimit : Int := 4 * 1024 * 1024

/-- Result of loading a key file: the return value, the key store afterwards,
and whether the file content was read (ghost observation: the reads and
parsing happen only after the size checks pass). -/
structure LoadOutcome where
  result : Bool
  key : NetworkKey
  contentRead : Bool
deriving DecidableEq, Repr

/-- NetworkKey::LoadPrivate: rejects size == -1 and size > 4 MiB before any
read; then reads the content, builds a BIO (bioOk), parses the PEM private key
and runs RSA_check_key (both folded into rsaCheckOk); only after all checks
pass is m_key replaced by the loaded key. -/
def NetworkKey.LoadPrivate (size : Int) (bioOk rsaCheckOk : Bool)
    (k : NetworkKey) : LoadOutcome :=
  if size = -1 then ⟨false, k, false⟩
  else if keyFileSizeLimit < size then ⟨false, k, false⟩
  else if ¬ bioOk then ⟨false, k, true⟩
  else if ¬ rsaCheckOk then ⟨false, k, true⟩
  else ⟨true, { m_key := some 1 }, true⟩

/-- NetworkKey::LoadPublic: the same size checks as LoadPrivate, then a read
and BIO construction; the PEM parse result is not checked, so with a working
BIO the function replaces m_key and returns true. -/
def NetworkKey.LoadPublic (size : Int) (bioOk : Bool)
    (k : NetworkKey) : LoadOutcome :=
  if size = -1 then ⟨false, k, false⟩
  else if keyFileSizeLimit < size then ⟨false, k, false⟩
  else if ¬ bioOk then ⟨false, k, true⟩
  else ⟨true, { m_key := some 3 }, true⟩

/-- NetworkKey::PublicKeyString: returns the PEM text of the loaded key, or a
null result when no key is loaded (the Nat stands for the PEM text). -/
def NetworkKey.PublicKeyString (k : NetworkKey) : Option Nat :=
  k.m_key

/-- NetworkKey::Sign: sets the signature output to null on entry; on success
allocates the signature bytes and reports their length, on failure returns
false leaving the signature output null (the signature content is opaque, so
the message bytes stand in for it). -/
def NetworkKey.Sign (ok : Bool) (message : List Nat) (_k : NetworkKey) :
    Bool × Option (List Nat) × Nat :=
  if ok then (true, some message, message.length) else (false, none, 0)

/-- A game command as queued by the client.  Only the target tick takes part in
the multiset ordering; payload distinguishes commands for the embedding.
The ordering key is modelled from the spec: the GameCommand comparator lives in
NetworkTypes.h, which is not among the sources, and the spec states the
container is ordered by tick with ties allowed. -/
structure GameCommand where
  tick : Nat
  payload : Nat
deriving DecidableEq, Repr

/-- std::multiset<GameCommand>::insert with the C++11 guarantee that an
element with an equivalent key is placed at the upper bound of its equal
range: the new command goes before the first strictly greater tick, after all
commands with an equal or smaller tick. -/
def multisetInsert (c : GameCommand) : List GameCommand → List GameCommand
  | [] => [c]
  | x :: xs => if c.tick < x.tick then c :: x :: xs else x :: multisetInsert c xs

/-- Modelled from the spec: DrainUpTo is performed by the external simulation
driver (not present in the sources); it removes and returns, in container
order, all commands with target tick at most the given tick. -/
def drainUpTo (tick : Nat) (q : List GameCommand) : List GameCommand :=
  q.filter (fun c => c.tick ≤ tick)

/-- An outgoing authentication packet (the payload SendAuthentication
serializes: stream id and player name, password, PEM public key, signature
size and signature bytes). -/
structure AuthPacket where
  playerName : String
  password : String
  pubkey : Option Nat
  signature : Option (List Nat)
  sigsize : Nat
deriving DecidableEq, Repr

/-- One outbound NetworkConnection: the socket it was connected to, whether
the socket is still connected, the last disconnect reason string, the
authentication status and the packets queued on it. -/
structure NetworkConnection where
  host : String
  port : Nat
  socketConnected : Bool
  lastDisconnectReason : Option Nat
  AuthStatus : NETWORK_AUTH
  sentPackets : List AuthPacket
deriving DecidableEq, Repr

/-- The connection object Begin creates: a fresh TCP socket with an
asynchronous connect to (host, port). -/
def newNetworkConnection (host : String) (port : Nat) : NetworkConnection :=
  { host := host
    port := port
    socketConnected := true
    lastDisconnectReason := none
    AuthStatus := NETWORK_AUTH.NONE
    sentPackets := [] }

/-- The NetworkClient object's fields together with the process-wide network
mode flag.  processedMaps is a ghost log of the byte buffers handed to
ProcessMap; assertionFailed is a ghost flag set when a Guard::Assert condition
is false (Guard::Assert is not among the sources; it reports the violation and
execution continues). -/
structure ClientState where
  mode : NETWORK_MODE
  _status : NETWORK_CLIENT_STATUS
  _lastConnectStatus : SOCKET_STATUS
  _serverConnection : Option NetworkConnection
  _key : NetworkKey
  _challenge : List Nat
  _mapBuffer : List Nat
  _serverTick : Nat
  _serverSrand0 : Nat
  _serverSrand0Tick : Nat
  _desynchronised : Bool
  _gameCommandQueue : List GameCommand
  processedMaps : List (List Nat)
  chatLogging : Bool
  assertionFailed : Bool
deriving DecidableEq, Repr

/-- A freshly constructed NetworkClient with the mode flag clear. -/
def initialClientState : ClientState :=
  { mode := NETWORK_MODE.NONE
    _status := NETWORK_CLIENT_STATUS.NONE
    _lastConnectStatus := SOCKET_STATUS.CLOSED
    _serverConnection := none
    _key := { m_key := none }
    _challenge := []
    _mapBuffer := []
    _serverTick := 0
    _serverSrand0 := 0
    _serverSrand0Tick := 0
    _desynchronised := false
    _gameCommandQueue := []
    processedMaps := []
    chatLogging := false
    assertionFailed := false }

/-- Outcomes of the external filesystem and OpenSSL calls the key setup and
challenge handling perform. -/
structure KeyEnv where
  fileExists : Bool
  generateOk : Bool
  ensureDirectoryOk : Bool
  openPrivateWriteOk : Bool
  openPublicWriteOk : Bool
  openPrivateReadOk : Bool
  privateFileSize : Int
  bioOk : Bool
  rsaCheckOk : Bool
  signOk : Bool
deriving DecidableEq, Repr

/-- NetworkClient::Close: unconditionally clears the process-wide network mode
flag; nothing else is touched. -/
def Close (s : ClientState) : ClientState :=
  { s with mode := NETWORK_MODE.NONE }

/-- Applies a mutation to the server connection when one exists (the C++ code
dereferences _serverConnection unconditionally; the handlers are only invoked
with a live connection). -/
def updateConn (f : NetworkConnection → NetworkConnection)
    (s : ClientState) : ClientState :=
  { s with _serverConnection := s._serverConnection.map f }

/-- NetworkClient::SetupUserKey.  When no private key file exists: Generate
(return value ignored), then directory creation, then opening the private and
public key files for writing, failing on the first I/O error; SavePrivate and
SavePublic results are ignored.  When the file exists: open it (the null check
on the handle), LoadPrivate, then Unload, returning the validity LoadPrivate
reported. -/
def SetupUserKey (env : KeyEnv) (s : ClientState) : Bool × ClientState :=
  if ¬ env.fileExists then
    let gen := NetworkKey.Generate env.generateOk s._key
    let s1 := { s with _key := gen.2 }
    if ¬ env.ensureDirectoryOk then (false, s1)
    else if ¬ env.openPrivateWriteOk then (false, s1)
    else if ¬ env.openPublicWriteOk then (false, s1)
    else (true, s1)
  else
    if ¬ env.openPrivateReadOk then (false, s)
    else
      let out := NetworkKey.LoadPrivate env.privateFileSize env.bioOk
        env.rsaCheckOk s._key
      (out.result, { s with _key := out.key.Unload })

/-- NetworkClient::Begin(host, port): first calls Close (clearing the mode
flag), asserts the mode is NONE (always true after Close), sets the mode to
CLIENT, asserts _serverConnection is null (recorded in assertionFailed when
violated; execution continues), installs a fresh connection with an
asynchronous connect, sets status CONNECTING, resets the last connect status,
starts chat logging, and finally returns the result of SetupUserKey. -/
def Begin (env : KeyEnv) (host : String) (port : Nat)
    (s : ClientState) : Bool × ClientState :=
  let s1 := Close s
  let s2 := if s1.mode ≠ NETWORK_MODE.NONE
    then { s1 with assertionFailed := true, mode := NETWORK_MODE.CLIENT }
    else { s1 with mode := NETWORK_MODE.CLIENT }
  let s3 := if s2._serverConnection ≠ none
    then { s2 with assertionFailed := true }
    else s2
  let s4 := { s3 with
    _serverConnection := some (newNetworkConnection host port)
    _status := NETWORK_CLIENT_STATUS.CONNECTING
    _lastConnectStatus := SOCKET_STATUS.CLOSED
    chatLogging := true }
  let r := SetupUserKey env s4
  if ¬ r.1 then (false, r.2) else (true, r.2)

/-- NetworkClient::LoadPrivateKey: when the key file exists, opens it and runs
LoadPrivate on it (the file handle is not null-checked here); otherwise
reports failure without touching the key store. -/
def LoadPrivateKey (env : KeyEnv) (s : ClientState) : Bool × ClientState :=
  if env.fileExists then
    let out := NetworkKey.LoadPrivate env.privateFileSize env.bioOk
      env.rsaCheckOk s._key
    (out.result, { s with _key := out.key })
  else
    (false, s)

/-- NetworkClient::SendAuthentication: builds the AUTH packet, marks the
connection's auth status REQUESTED and queues the packet on it. -/
def SendAuthentication (playerName password : String) (pubkey : Option Nat)
    (signature : Option (List Nat)) (sigsize : Nat)
    (s : ClientState) : ClientState :=
  updateConn (fun c =>
    { c with
      AuthStatus := NETWORK_AUTH.REQUESTED
      sentPackets := c.sentPackets ++
        [{ playerName := playerName, password := password, pubkey := pubkey
           signature := signature, sigsize := sigsize }] }) s

/-- NetworkClient::HandleChallenge: stores the challenge bytes, snapshots the
public key string, loads the private key (on failure: verification-failure
disconnect reason and socket disconnect), signs the challenge (on failure:
the same disconnect path, returning before the Unload call), otherwise unloads
the key and sends the authentication packet with an empty password. -/
def HandleChallenge (env : KeyEnv) (playerName : String)
    (challenge : List Nat) (s : ClientState) : ClientState :=
  let s0 := { s with _challenge := challenge }
  let pubkey := s0._key.PublicKeyString
  let load := LoadPrivateKey env s0
  if ¬ load.1 then
    updateConn (fun c =>
      { c with
        lastDisconnectReason := some STR_MULTIPLAYER_VERIFICATION_FAILURE
        socketConnected := false }) load.2
  else
    let s1 := load.2
    let signed := s1._key.Sign env.signOk s1._challenge
    if ¬ signed.1 then
      updateConn (fun c =>
        { c with
          lastDisconnectReason := some STR_MULTIPLAYER_VERIFICATION_FAILURE
          socketConnected := false }) s1
    else
      let s2 := { s1 with _key := s1._key.Unload }
      SendAuthentication playerName "" pubkey signed.2.1 signed.2.2 s2

/-- NetworkClient::SendPassword: snapshots the public key string, loads the
private key (on failure: plain early return), signs the stored challenge with
the result ignored, unloads the key, and sends the authentication packet with
the given password and whatever signature pointer and length the Sign call
produced. -/
def SendPassword (env : KeyEnv) (playerName password : String)
    (s : ClientState) : ClientState :=
  let pubkey := s._key.PublicKeyString
  let load := LoadPrivateKey env s
  if ¬ load.1 then load.2
  else
    let s1 := load.2
    let signed := s1._key.Sign env.signOk s1._challenge
    let s2 := { s1 with _key := s1._key.Unload }
    SendAuthentication playerName password pubkey signed.2.1 signed.2.2 s2

/-- Writes a chunk into the map buffer at the given byte offset
(Memory::Copy onto _mapBuffer.data() + offset). -/
def writeAt (buf : List Nat) (offset : Nat) (chunk : List Nat) : List Nat :=
  buf.take offset ++ chunk ++ buf.drop (offset + chunk.length)

/-- NetworkClient::ReceiveMap: grows the buffer to totalDataSize when it is
smaller (std::vector::resize zero-fills the new tail), copies the chunk at its
offset, and when offset + chunkSize equals the total size hands the buffer to
ProcessMap (recorded in processedMaps) and shrinks the buffer to empty. -/
def ReceiveMap (totalDataSize offset : Nat) (dataChunk : List Nat)
    (s : ClientState) : ClientState :=
  let buf0 := if s._mapBuffer.length < totalDataSize
    then s._mapBuffer ++ List.replicate (totalDataSize - s._mapBuffer.length) 0
    else s._mapBuffer
  let buf1 := writeAt buf0 offset dataChunk
  if offset + dataChunk.length = totalDataSize then
    { s with _mapBuffer := [], processedMaps := s.processedMaps ++ [buf1] }
  else
    { s with _mapBuffer := buf1 }

/-- NetworkClient::RecieveGameCommand: inserts the command into the multiset
queue. -/
def RecieveGameCommand (c : GameCommand) (s : ClientState) : ClientState :=
  { s with _gameCommandQueue := multisetInsert c s._gameCommandQueue }

/-- NetworkClient::RecieveTick: stores the authoritative tick; when the seed
anchor tick is 0 (the re-armed state) also stores the seed and makes this tick
the anchor tick. -/
def RecieveTick (tick srand0 : Nat) (s : ClientState) : ClientState :=
  let s1 := { s with _serverTick := tick }
  if s1._serverSrand0Tick = 0 then
    { s1 with _serverSrand0 := srand0, _serverSrand0Tick := tick }
  else s1

/-- NetworkClient::LoadMap: on a successful game_load_network, clears the
command queue, sets the server tick to the local tick counter, re-arms the
seed anchor (anchor tick 0) and clears the desync flag; on failure the abandon
command is issued externally and the client state is unchanged. -/
def LoadMap (gameLoadOk : Bool) (gCurrentTicks : Nat)
    (s : ClientState) : ClientState :=
  if gameLoadOk then
    { s with
      _gameCommandQueue := []
      _serverTick := gCurrentTicks
      _serverSrand0Tick := 0
      _desynchronised := false }
  else s

/-! ## Concrete states and environments used by the theorems -/

/-- A client state mid-session: mode flag set, session data present. -/
def sessionState : ClientState :=
  { initialClientState with
    mode := NETWORK_MODE.CLIENT
    _status := NETWORK_CLIENT_STATUS.CONNECTING
    _challenge := [7]
    _mapBuffer := [8]
    _gameCommandQueue := [{ tick := 5, payload := 0 }] }

/-- An environment where every filesystem and OpenSSL call succeeds. -/
def goodKeyEnv : KeyEnv :=
  { fileExists := true
    generateOk := true
    ensureDirectoryOk := true
    openPrivateWriteOk := true
    openPublicWriteOk := true
    openPrivateReadOk := true
    privateFileSize := 100
    bioOk := true
    rsaCheckOk := true
    signOk := true }

/-- An environment where key loading succeeds but signing fails. -/
def signFailEnv : KeyEnv :=
  { goodKeyEnv with signOk := false }

/-- An environment where no key file exists and directory creation fails. -/
def dirFailEnv : KeyEnv :=
  { goodKeyEnv with fileExists := false, ensureDirectoryOk := false }

/-- A connection on which authentication was already requested. -/
def oldConn : NetworkConnection :=
  { newNetworkConnection "old.example" 1 with
    AuthStatus := NETWORK_AUTH.REQUESTED }

/-- A client state with an active connection whose auth was already requested. -/
def activeConnState : ClientState :=
  { initialClientState with
    mode := NETWORK_MODE.CLIENT
    _status := NETWORK_CLIENT_STATUS.CONNECTING
    _serverConnection := some oldConn }

/-- Folds a list of received game commands into the client state. -/
def clientAfterCommands (arrivals : List GameCommand)
    (s : ClientState) : ClientState :=
  arrivals.foldl (fun t c => RecieveGameCommand c t) s

/-! ## Helper lemmas -/

theorem mem_multisetInsert {c y : GameCommand} {l : List GameCommand}
    (h : y ∈ multisetInsert c l) : y = c ∨ y ∈ l := by
  induction l with
  | nil => simpa [multisetInsert] using h
  | cons x xs ih =>
    simp only [multisetInsert] at h
    split at h
    · rcases List.mem_cons.mp h with h1 | h1
      · exact Or.inl h1
      · exact Or.inr h1
    · rcases List.mem_cons.mp h with h1 | h1
      · exact Or.inr (List.mem_cons.mpr (Or.inl h1))
      · rcases ih h1 with h2 | h2
        · exact Or.inl h2
        · exact Or.inr (List.mem_cons.mpr (Or.inr h2))

theorem multisetInsert_pairwise {c : GameCommand} {l : List GameCommand}
    (h : l.Pairwise (fun a b => a.tick ≤ b.tick)) :
    (multisetInsert c l).Pairwise (fun a b => a.tick ≤ b.tick) := by
  induction l with
  | nil => simp [multisetInsert]
  | cons x xs ih =>
    rcases List.pairwise_cons.mp h with ⟨hx, hxs⟩
    simp only [multisetInsert]
    split
    case isTrue hc =>
      refine List.Pairwise.cons ?_ h
      intro y hy
      rcases List.mem_cons.mp hy with rfl | hy2
      · exact Nat.le_of_lt hc
      · exact Nat.le_trans (Nat.le_of_lt hc) (hx y hy2)
    case isFalse hc =>
      refine List.Pairwise.cons ?_ (ih hxs)
      intro y hy
      rcases mem_multisetInsert hy with rfl | hy2
      · exact Nat.le_of_not_lt hc
      · exact hx y hy2

theorem clientAfterCommands_queue (ar : List GameCommand) (t : ClientState) :
    (clientAfterCommands ar t)._gameCommandQueue
      = ar.foldl (fun q c => multisetInsert c q) t._gameCommandQueue := by
  induction ar generalizing t with
  | nil => rfl
  | cons c cs ih =>
    simpa [clientAfterCommands, RecieveGameCommand]
      using ih (RecieveGameCommand c t)

theorem foldl_multisetInsert_pairwise (ar : List GameCommand)
    (q : List GameCommand) (h : q.Pairwise (fun a b => a.tick ≤ b.tick)) :
    (ar.foldl (fun q c => multisetInsert c q) q).Pairwise
      (fun a b => a.tick ≤ b.tick) := by
  induction ar generalizing q with
  | nil => simpa using h
  | cons c cs ih => exact ih _ (multisetInsert_pairwise h)

theorem loadPrivate_result_independent (size : Int) (bioOk rsaCheckOk : Bool)
    (k k2 : NetworkKey) :
    (NetworkKey.LoadPrivate size bioOk rsaCheckOk k).result
      = (NetworkKey.LoadPrivate size bioOk rsaCheckOk k2).result := by
  unfold NetworkKey.LoadPrivate
  split
  · rfl
  · split
    · rfl
    · split
      · rfl
      · split <;> rfl

theorem setupUserKey_result (env : KeyEnv) (s t : ClientState) :
    (SetupUserKey env s).1 = (SetupUserKey env t).1 := by
  unfold SetupUserKey
  split
  · split
    · rfl
    · split
      · rfl
      · split <;> rfl
  · split
    · rfl
    · exact loadPrivate_result_independent _ _ _ _ _

theorem setupUserKey_frame (env : KeyEnv) (s : ClientState) :
    (SetupUserKey env s).2._serverConnection = s._serverConnection ∧
    (SetupUserKey env s).2._status = s._status ∧
    (SetupUserKey env s).2.mode = s.mode ∧
    (SetupUserKey env s).2.assertionFailed = s.assertionFailed := by
  unfold SetupUserKey
  split
  · split
    · exact ⟨rfl, rfl, rfl, rfl⟩
    · split
      · exact ⟨rfl, rfl, rfl, rfl⟩
      · split <;> exact ⟨rfl, rfl, rfl, rfl⟩
  · split
    · exact ⟨rfl, rfl, rfl, rfl⟩
    · exact ⟨rfl, rfl, rfl, rfl⟩

/-- The client state Begin has built just before it runs SetupUserKey, when a
server connection already exists (so the null-connection assertion failed). -/
theorem begin_unfold_active (env : KeyEnv) (host : String) (port : Nat)
    (s : ClientState) (hconn : s._serverConnection ≠ none) :
    Begin env host port s =
      (let s4 : ClientState :=
        { s with
          mode := NETWORK_MODE.CLIENT
          assertionFailed := true
          _serverConnection := some (newNetworkConnection host port)
          _status := NETWORK_CLIENT_STATUS.CONNECTING
          _lastConnectStatus := SOCKET_STATUS.CLOSED
          chatLogging := true }
      ((SetupUserKey env s4).1, (SetupUserKey env s4).2)) := by
  simp [Begin, Close, hconn]
  split <;> rename_i h <;> simp_all [Prod.ext_iff]

theorem setupUserKey_conn (env : KeyEnv) (s : ClientState) :
    (SetupUserKey env s).2._serverConnection = s._serverConnection :=
  (setupUserKey_frame env s).1

theorem setupUserKey_status (env : KeyEnv) (s : ClientState) :
    (SetupUserKey env s).2._status = s._status :=
  (setupUserKey_frame env s).2.1

theorem setupUserKey_mode (env : KeyEnv) (s : ClientState) :
    (SetupUserKey env s).2.mode = s.mode :=
  (setupUserKey_frame env s).2.2.1

theorem setupUserKey_assert (env : KeyEnv) (s : ClientState) :
    (SetupUserKey env s).2.assertionFailed = s.assertionFailed :=
  (setupUserKey_frame env s).2.2.2

/-! ## Claim theorems -/

/-- C1 counterexample: with a connection already active (mode flag set, auth
requested on the existing connection), Begin returns true — not failure — and
replaces the existing connection with a fresh one, so it is not a no-op. -/
theorem begin_second_connection_not_rejected :
    (Begin goodKeyEnv "new.example" 2 activeConnState).1 = true ∧
    (Begin goodKeyEnv "new.example" 2 activeConnState).2._serverConnection
      ≠ activeConnState._serverConnection ∧
    (Begin goodKeyEnv "new.example" 2 activeConnState).2._serverConnection
      = some (newNetworkConnection "new.example" 2) := by
  decide

/-- C1 (amended): calling Begin while a connection is active does not fail
fast: Begin first clears the mode flag via Close (defeating the mode guard),
trips the internal assertion that no server connection exists, then replaces
the connection with a fresh one, sets status CONNECTING and mode CLIENT, and
returns the key-setup result exactly as on a first connect. -/
theorem begin_with_active_connection (env : KeyEnv) (host : String)
    (port : Nat) (s : ClientState) (hconn : s._serverConnection ≠ none) :
    (Begin env host port s).2._serverConnection
      = some (newNetworkConnection host port) ∧
    (Begin env host port s).2._status = NETWORK_CLIENT_STATUS.CONNECTING ∧
    (Begin env host port s).2.mode = NETWORK_MODE.CLIENT ∧
    (Begin env host port s).2.assertionFailed = true ∧
    (Begin env host port s).1 = (SetupUserKey env s).1 := by
  rw [begin_unfold_active env host port s hconn]
  refine ⟨?_, ?_, ?_, ?_, ?_⟩ <;>
    simp [setupUserKey_conn, setupUserKey_status, setupUserKey_mode,
      setupUserKey_assert]
  exact setupUserKey_result env _ s

/-- Witness for begin_with_active_connection at the concrete active-connection
state. -/
theorem begin_with_active_connection_witness :
    (activeConnState._serverConnection ≠ none) ∧
    ((Begin goodKeyEnv "example.test" 11753 activeConnState).2._serverConnection
        = some (newNetworkConnection "example.test" 11753) ∧
     (Begin goodKeyEnv "example.test" 11753 activeConnState).2._status
        = NETWORK_CLIENT_STATUS.CONNECTING ∧
     (Begin goodKeyEnv "example.test" 11753 activeConnState).2.mode
        = NETWORK_MODE.CLIENT ∧
     (Begin goodKeyEnv "example.test" 11753 activeConnState).2.assertionFailed
        = true ∧
     (Begin goodKeyEnv "example.test" 11753 activeConnState).1
        = (SetupUserKey goodKeyEnv activeConnState).1) :=
  ⟨by decide,
   begin_with_active_connection goodKeyEnv "example.test" 11753 activeConnState
     (by decide)⟩

/-- C4 counterexample: when key setup fails because the keys directory cannot
be created, Begin returns failure but the process-wide mode flag is left set
to CLIENT, not NONE. -/
theorem begin_key_failure_leaves_mode_set :
    (Begin dirFailEnv "example.test" 11753 initialClientState).1 = false ∧
    (Begin dirFailEnv "example.test" 11753 initialClientState).2.mode
      = NETWORK_MODE.CLIENT := by
  decide

/-- C4 (amended): any key-setup failure makes Begin return failure to the
caller, but the network-mode flag remains set to CLIENT when Begin returns. -/
theorem begin_key_setup_failure (env : KeyEnv) (host : String) (port : Nat)
    (s : ClientState) (hfail : (SetupUserKey env s).1 = false) :
    (Begin env host port s).1 = false ∧
    (Begin env host port s).2.mode = NETWORK_MODE.CLIENT := by
  have key : ∀ t : ClientState, (SetupUserKey env t).1 = false :=
    fun t => (setupUserKey_result env t s).trans hfail
  by_cases hc : s._serverConnection = none <;>
    simp [Begin, Close, hc, key, setupUserKey_mode]

/-- Witness for begin_key_setup_failure at the directory-creation-failure
environment. -/
theorem begin_key_setup_failure_witness :
    ((SetupUserKey dirFailEnv initialClientState).1 = false) ∧
    ((Begin dirFailEnv "h" 1 initialClientState).1 = false ∧
     (Begin dirFailEnv "h" 1 initialClientState).2.mode
        = NETWORK_MODE.CLIENT) :=
  ⟨by decide,
   begin_key_setup_failure dirFailEnv "h" 1 initialClientState (by decide)⟩

/-- C9: Unload is idempotent — a second Unload is a no-op and leaves the store
in the same unloaded state as the first; Unload on an unloaded store returns
it unchanged; and Close on an already-closed connection produces no state
change beyond the first Close. -/
theorem unload_and_close_idempotent (k : NetworkKey) (s : ClientState) :
    NetworkKey.Unload (NetworkKey.Unload k) = NetworkKey.Unload k ∧
    (NetworkKey.Unload k).m_key = none ∧
    NetworkKey.Unload { m_key := none } = { m_key := none } ∧
    Close (Close s) = Close s := by
  refine ⟨?_, ?_, rfl, rfl⟩ <;>
    cases h : k.m_key <;> simp [NetworkKey.Unload, h]

/-- C5 counterexample: Close on a mid-session state leaves the stored
challenge, the map transfer buffer and the game-command queue exactly as they
were, so the claim that they are all empty after Close is false. -/
theorem close_does_not_clear_session_state :
    (Close sessionState)._challenge = [7] ∧
    (Close sessionState)._mapBuffer = [8] ∧
    (Close sessionState)._gameCommandQueue = [{ tick := 5, payload := 0 }] ∧
    ¬ ((Close sessionState)._challenge = [] ∧
       (Close sessionState)._mapBuffer = [] ∧
       (Close sessionState)._gameCommandQueue = []) := by
  decide

/-- C5 (amended): Close clears only the process-wide network-mode flag; the
challenge, map buffer, command queue, key store and connection are left
unchanged (and Close performs no file operation, so the identity keypair
files on disk are untouched). -/
theorem close_clears_only_mode (s : ClientState) :
    (Close s).mode = NETWORK_MODE.NONE ∧
    (Close s)._challenge = s._challenge ∧
    (Close s)._mapBuffer = s._mapBuffer ∧
    (Close s)._gameCommandQueue = s._gameCommandQueue ∧
    (Close s)._key = s._key ∧
    (Close s)._serverConnection = s._serverConnection :=
  ⟨rfl, rfl, rfl, rfl, rfl, rfl⟩

/-- C8: LoadPrivate and LoadPublic reject a declared size of -1 or one above
the 4 MiB ceiling without reading the file content; within the ceiling,
LoadPrivate additionally fails (after reading) when the RSA key-integrity
self-check does not pass. -/
theorem networkKey_load_size_and_check (sizeBad sizeOk : Int)
    (bioOk rsa : Bool) (k kc : NetworkKey)
    (hbad : sizeBad = -1 ∨ keyFileSizeLimit < sizeBad)
    (hne : sizeOk ≠ -1) (hle : sizeOk ≤ keyFileSizeLimit) :
    NetworkKey.LoadPrivate sizeBad bioOk rsa k
      = { result := false, key := k, contentRead := false } ∧
    NetworkKey.LoadPublic sizeBad bioOk k
      = { result := false, key := k, contentRead := false } ∧
    (NetworkKey.LoadPrivate sizeOk true false kc).result = false ∧
    (NetworkKey.LoadPrivate sizeOk true false kc).contentRead = true := by
  have hnotlt : ¬ keyFileSizeLimit < sizeOk := not_lt.mpr hle
  rcases hbad with h | h
  · subst h
    simp [NetworkKey.LoadPrivate, NetworkKey.LoadPublic, hne, hnotlt]
  · have h1 : sizeBad ≠ -1 := by
      have : (0 : Int) < keyFileSizeLimit := by norm_num [keyFileSizeLimit]
      omega
    simp [NetworkKey.LoadPrivate, NetworkKey.LoadPublic, h, h1, hne, hnotlt]

/-- Witness for networkKey_load_size_and_check at size 4 MiB + 1 and size
100. -/
theorem networkKey_load_size_and_check_witness :
    (((4194305 : Int) = -1 ∨ keyFileSizeLimit < 4194305) ∧
     ((100 : Int) ≠ -1) ∧ ((100 : Int) ≤ keyFileSizeLimit)) ∧
    (NetworkKey.LoadPrivate 4194305 true true { m_key := none }
        = { result := false, key := { m_key := none }, contentRead := false } ∧
     NetworkKey.LoadPublic 4194305 true { m_key := none }
        = { result := false, key := { m_key := none }, contentRead := false } ∧
     (NetworkKey.LoadPrivate 100 true false { m_key := none }).result = false ∧
     (NetworkKey.LoadPrivate 100 true false { m_key := none }).contentRead
        = true) :=
  ⟨⟨by decide, by decide, by decide⟩,
   networkKey_load_size_and_check 4194305 100 true true
     { m_key := none } { m_key := none } (by decide) (by decide) (by decide)⟩

/-- C6 counterexample: after a successful map load re-arms the anchor, a first
tick message with tick 0 stores seed 111, yet the second tick message
overwrites the anchored seed with 222 and the anchor tick with 5 — the
subsequent call did not leave the anchor unchanged. -/
theorem recieveTick_zero_tick_reanchors :
    (RecieveTick 0 111 (LoadMap true 0 initialClientState))._serverSrand0
      = 111 ∧
    (RecieveTick 5 222 (RecieveTick 0 111
        (LoadMap true 0 initialClientState)))._serverSrand0 = 222 ∧
    (RecieveTick 5 222 (RecieveTick 0 111
        (LoadMap true 0 initialClientState)))._serverSrand0Tick = 5 := by
  decide

/-- C6 (amended): after the anchor is re-armed, the first tick message whose
tick is nonzero anchors both the tick and the seed, and a subsequent tick
message updates only the authoritative tick, leaving the anchor unchanged;
a first tick of 0 leaves the anchor re-armed. -/
theorem recieveTick_anchor (s : ClientState) (t1 r1 t2 r2 : Nat)
    (harm : s._serverSrand0Tick = 0) (hnz : t1 ≠ 0) :
    ((RecieveTick t1 r1 s)._serverTick = t1 ∧
     (RecieveTick t1 r1 s)._serverSrand0 = r1 ∧
     (RecieveTick t1 r1 s)._serverSrand0Tick = t1) ∧
    ((RecieveTick t2 r2 (RecieveTick t1 r1 s))._serverTick = t2 ∧
     (RecieveTick t2 r2 (RecieveTick t1 r1 s))._serverSrand0 = r1 ∧
     (RecieveTick t2 r2 (RecieveTick t1 r1 s))._serverSrand0Tick = t1) := by
  simp [RecieveTick, harm, hnz]

/-- Witness for recieveTick_anchor after a map load, with ticks 100 and 101
and seeds 3735928559 and 7. -/
theorem recieveTick_anchor_witness :
    ((LoadMap true 0 initialClientState)._serverSrand0Tick = 0 ∧
     (100 : Nat) ≠ 0) ∧
    (((RecieveTick 100 3735928559
          (LoadMap true 0 initialClientState))._serverTick = 100 ∧
      (RecieveTick 100 3735928559
          (LoadMap true 0 initialClientState))._serverSrand0 = 3735928559 ∧
      (RecieveTick 100 3735928559
          (LoadMap true 0 initialClientState))._serverSrand0Tick = 100) ∧
     ((RecieveTick 101 7 (RecieveTick 100 3735928559
          (LoadMap true 0 initialClientState)))._serverTick = 101 ∧
      (RecieveTick 101 7 (RecieveTick 100 3735928559
          (LoadMap true 0 initialClientState)))._serverSrand0 = 3735928559 ∧
      (RecieveTick 101 7 (RecieveTick 100 3735928559
          (LoadMap true 0 initialClientState)))._serverSrand0Tick = 100)) :=
  ⟨⟨by decide, by decide⟩,
   recieveTick_anchor (LoadMap true 0 initialClientState) 100 3735928559 101 7
     (by decide) (by decide)⟩

/-- Receiving the first half of a transfer of size 2n at offset 0 grows the
buffer, stores the half, and does not complete. -/
theorem receiveMap_first_chunk (n : Nat) (a : List Nat) (s : ClientState)
    (hbuf : s._mapBuffer = []) (ha : a.length = n) (hn : 0 < n) :
    ReceiveMap (2 * n) 0 a s
      = { s with _mapBuffer := a ++ List.replicate n 0 } := by
  have h2 : 0 < 2 * n := by omega
  have h3 : ¬ (0 + n = 2 * n) := by omega
  have h4 : 2 * n - n = n := by omega
  have h5 : ¬ (n = 2 * n) := by omega
  unfold ReceiveMap writeAt
  simp [hbuf, ha, h2, h3, h4, h5, List.drop_replicate]

/-- Receiving the second half at offset n when the first half is in place
completes: the full concatenation is handed to ProcessMap and the buffer is
freed. -/
theorem receiveMap_second_chunk (n : Nat) (a b : List Nat) (s : ClientState)
    (hbuf : s._mapBuffer = a ++ List.replicate n 0)
    (ha : a.length = n) (hb : b.length = n) :
    ReceiveMap (2 * n) n b s
      = { s with _mapBuffer := [],
                 processedMaps := s.processedMaps ++ [a ++ b] } := by
  have h1 : ¬ (a.length + n < 2 * n) := by omega
  have h2 : n + n = 2 * n := by omega
  have h3 : List.drop (2 * n) (a ++ List.replicate n 0) = [] := by
    rw [List.drop_eq_nil_iff]
    simp only [List.length_append, List.length_replicate, ha]
    omega
  have h4 : List.drop (n + n) (a ++ List.replicate n 0) = [] := by
    rw [List.drop_eq_nil_iff]
    simp only [List.length_append, List.length_replicate, ha]
    omega
  unfold ReceiveMap writeAt
  simp [hbuf, hb, h1, h2, h3, h4, List.take_left' ha]

/-- Receiving the final-offset half first, on an empty buffer, already
triggers completion: the bytes handed to ProcessMap have the unreceived first
half zero-filled. -/
theorem receiveMap_reverse_first_chunk (n : Nat) (b : List Nat)
    (s : ClientState) (hbuf : s._mapBuffer = []) (hb : b.length = n)
    (hn : 0 < n) :
    ReceiveMap (2 * n) n b s
      = { s with _mapBuffer := [],
                 processedMaps := s.processedMaps
                   ++ [List.replicate n 0 ++ b] } := by
  have h2 : 0 < 2 * n := by omega
  have h3 : n + n = 2 * n := by omega
  have h4 : min n (2 * n) = n := by omega
  have h5 : 2 * n - (n + n) = 0 := by omega
  unfold ReceiveMap writeAt
  simp [hbuf, hb, h2, h3, h4, h5, List.take_replicate, List.drop_replicate]

/-- C2 counterexample: a transfer of total size 2 split into chunks [10] at
offset 0 and [20] at offset 1 completes in both arrival orders, but the bytes
handed to the map processor differ: [10, 20] in offset order versus [0, 20]
(completion fires on the final-offset chunk with the first byte never
received) in reverse order. -/
theorem receiveMap_order_dependent :
    (ReceiveMap 2 1 [20] (ReceiveMap 2 0 [10]
        initialClientState)).processedMaps = [[10, 20]] ∧
    (ReceiveMap 2 0 [10] (ReceiveMap 2 1 [20]
        initialClientState)).processedMaps = [[0, 20]] ∧
    ([[10, 20]] : List (List Nat)) ≠ [[0, 20]] := by
  decide

/-- C2 (amended): feeding the halves in offset order completes at the second
chunk with the true concatenation; feeding them in reverse order signals
completion already at the final-offset chunk, handing over the buffer with
the unreceived first half zero-filled (so the reassembled bytes differ unless
the first half is all zeroes); and a ProcessMap handoff happens on a chunk
exactly when offset + chunkSize equals totalSize. -/
theorem receiveMap_reassembly (a b : List Nat) (n total off : Nat)
    (chunk : List Nat) (s : ClientState)
    (ha : a.length = n) (hb : b.length = n) (hn : 0 < n) :
    (ReceiveMap (2 * n) n b (ReceiveMap (2 * n) 0 a
        initialClientState)).processedMaps = [a ++ b] ∧
    (ReceiveMap (2 * n) n b initialClientState).processedMaps
      = [List.replicate n 0 ++ b] ∧
    (ReceiveMap total off chunk s).processedMaps.length
      = s.processedMaps.length
        + (if off + chunk.length = total then 1 else 0) := by
  refine ⟨?_, ?_, ?_⟩
  · rw [receiveMap_first_chunk n a initialClientState rfl ha hn,
      receiveMap_second_chunk n a b _ rfl ha hb]
    simp [initialClientState]
  · rw [receiveMap_reverse_first_chunk n b initialClientState rfl hb hn]
    simp [initialClientState]
  · unfold ReceiveMap
    split <;> split <;> simp

/-- Witness for receiveMap_reassembly with halves [10] and [20] of a size-2
transfer, and a completing chunk check at offset 1. -/
theorem receiveMap_reassembly_witness :
    (([10] : List Nat).length = 1 ∧ ([20] : List Nat).length = 1 ∧
     0 < 1) ∧
    ((ReceiveMap (2 * 1) 1 [20] (ReceiveMap (2 * 1) 0 [10]
        initialClientState)).processedMaps = [[10] ++ [20]] ∧
     (ReceiveMap (2 * 1) 1 [20] initialClientState).processedMaps
        = [List.replicate 1 0 ++ [20]] ∧
     (ReceiveMap 2 1 [20] initialClientState).processedMaps.length
        = initialClientState.processedMaps.length
          + (if 1 + ([20] : List Nat).length = 2 then 1 else 0)) :=
  ⟨⟨by decide, by decide, by decide⟩,
   receiveMap_reassembly [10] [20] 1 2 1 [20] initialClientState
     (by decide) (by decide) (by decide)⟩

/-- C3: at the failing input — key file present and valid, signing fails —
HandleChallenge returns with the private key still loaded in the key store
(the early return skips the Unload call), while the same failure in
SendPassword leaves the key unloaded; the invariant the claim states is
violated by HandleChallenge. -/
theorem handleChallenge_sign_failure_keeps_key_loaded :
    (HandleChallenge signFailEnv "Guest" [1, 2, 3]
        activeConnState)._key.m_key = some 1 ∧
    (SendPassword signFailEnv "Guest" "pw" activeConnState)._key.m_key
      = none := by
  decide

/-- C7: enqueueing commands with ticks [5, 2, 5, 1] (payloads record arrival
order) and draining up to tick 5 yields ticks [1, 2, 5, 5] with the two
tick-5 commands in arrival order; and for every arrival order, the queue —
and any drain of it — is in non-decreasing tick order. -/
theorem gameCommandQueue_tick_ordering (arrivals : List GameCommand)
    (n : Nat) :
    drainUpTo 5 (clientAfterCommands
        [{ tick := 5, payload := 0 }, { tick := 2, payload := 1 },
         { tick := 5, payload := 2 }, { tick := 1, payload := 3 }]
        initialClientState)._gameCommandQueue
      = [{ tick := 1, payload := 3 }, { tick := 2, payload := 1 },
         { tick := 5, payload := 0 }, { tick := 5, payload := 2 }] ∧
    (clientAfterCommands arrivals initialClientState)._gameCommandQueue.Pairwise
      (fun a b => a.tick ≤ b.tick) ∧
    (drainUpTo n (clientAfterCommands arrivals
        initialClientState)._gameCommandQueue).Pairwise
      (fun a b => a.tick ≤ b.tick) := by
  have hq : (clientAfterCommands arrivals
      initialClientState)._gameCommandQueue.Pairwise
      (fun a b => a.tick ≤ b.tick) := by
    rw [clientAfterCommands_queue]
    exact foldl_multisetInsert_pairwise arrivals _ (by simp [initialClientState])
  refine ⟨by decide, hq, ?_⟩
  exact hq.filter _

/-- C10: when key loading succeeds and signing fails, HandleChallenge sets
the verification-failure disconnect reason and disconnects the socket without
queueing any packet, while SendPassword on the identical failure still builds
and queues the authentication packet, carrying the null signature pointer and
the length the failed Sign call left behind. -/
theorem sign_failure_divergence (env : KeyEnv) (pn pw : String)
    (chal : List Nat) (s : ClientState) (conn : NetworkConnection)
    (hfe : env.fileExists = true) (hsz1 : env.privateFileSize ≠ -1)
    (hsz2 : env.privateFileSize ≤ keyFileSizeLimit)
    (hbio : env.bioOk = true) (hrsa : env.rsaCheckOk = true)
    (hsig : env.signOk = false)
    (hconn : s._serverConnection = some conn) :
    (HandleChallenge env pn chal s)._serverConnection
      = some { conn with
          lastDisconnectReason := some STR_MULTIPLAYER_VERIFICATION_FAILURE,
          socketConnected := false } ∧
    (SendPassword env pn pw s)._serverConnection
      = some { conn with
          AuthStatus := NETWORK_AUTH.REQUESTED,
          sentPackets := conn.sentPackets ++
            [{ playerName := pn, password := pw,
               pubkey := s._key.PublicKeyString,
               signature := none, sigsize := 0 }] } := by
  have hlt : ¬ keyFileSizeLimit < env.privateFileSize := not_lt.mpr hsz2
  constructor <;>
    simp [HandleChallenge, SendPassword, LoadPrivateKey,
      NetworkKey.LoadPrivate, NetworkKey.Sign, NetworkKey.Unload,
      SendAuthentication, updateConn, hfe, hsz1, hlt, hbio, hrsa, hsig, hconn]

/-- Witness for sign_failure_divergence at the concrete sign-failure
environment and active connection. -/
theorem sign_failure_divergence_witness :
    (signFailEnv.fileExists = true ∧ signFailEnv.privateFileSize ≠ -1 ∧
     signFailEnv.privateFileSize ≤ keyFileSizeLimit ∧
     signFailEnv.bioOk = true ∧ signFailEnv.rsaCheckOk = true ∧
     signFailEnv.signOk = false ∧
     activeConnState._serverConnection = some oldConn) ∧
    ((HandleChallenge signFailEnv "Guest" [9]
        activeConnState)._serverConnection
      = some { oldConn with
          lastDisconnectReason := some STR_MULTIPLAYER_VERIFICATION_FAILURE,
          socketConnected := false } ∧
     (SendPassword signFailEnv "Guest" "pw2"
        activeConnState)._serverConnection
      = some { oldConn with
          AuthStatus := NETWORK_AUTH.REQUESTED,
          sentPackets := oldConn.sentPackets ++
            [{ playerName := "Guest", password := "pw2",
               pubkey := activeConnState._key.PublicKeyString,
               signature := none, sigsize := 0 }] }) :=
  ⟨⟨rfl, by decide, by decide, rfl, rfl, rfl, rfl⟩,
   sign_failure_divergence signFailEnv "Guest" "pw2" [9] activeConnState
     oldConn rfl (by decide) (by decide) rfl rfl rfl rfl⟩

end OpenRCT2
